import Mathlib

/-!
Shallow embedding of the rule-evaluation engine of `src/app.js` (a
browser-based rule-evaluation dashboard for transaction data).

JavaScript dynamic values that flow through the engine are modelled by
`JSVal` (strings and finite numbers; `null`/`undefined` are modelled by
`Option.none` at lookup sites).  JavaScript numbers are modelled as exact
rationals; `NaN` — which arises only from `parseFloat` failures here — is
modelled as `Option.none`, and every JS comparison involving `NaN` is
false, which `nanCmp` reproduces.

The engine functions `checkOneCondition`, `checkOneRule`, `checkAllRules`
and the hit-percentage computation of `renderRules`/`renderStats` are
transcribed directly; the global `featureVectors` table read by
`checkOneRule` is passed as an explicit argument.
-/

attribute [local semireducible] Rat.mul Rat.inv Rat.add Rat.sub Rat.ofScientific

/-- A JavaScript value reaching the engine: a string or a (finite) number.
JSON `null` and absent fields are modelled by `Option.none` at the lookup
sites, matching the `=== null || === undefined` test in the source. -/
inductive JSVal where
  | str (s : String)
  | num (q : ℚ)
deriving DecidableEq, Repr

/-- One condition of a rule: `field`, `source`, `op`, `value`
(src/app.js data model; `value` may be a string or a number in the JSON). -/
structure Condition where
  field : String
  source : String
  op : String
  value : JSVal
deriving DecidableEq, Repr

/-- A transaction record: its `transaction_id` join key plus its fields
(an object modelled as a partial map from field name to value). -/
structure Transaction where
  transaction_id : String
  fields : String → Option JSVal

/-- A feature vector: derived fields of one transaction (object modelled as
a partial map). -/
def FeatureVector : Type := String → Option JSVal

/-- The `featureVectors` table built in `loadData`: transaction id to
feature vector (`featureVectors[item.transaction_id] = item`). -/
def FeatureVectors : Type := String → Option FeatureVector

/-- A rule: `rule_id`, `name`, `severity`, `action` and ordered conditions. -/
structure Rule where
  rule_id : String
  name : String
  severity : String
  action : String
  conditions : List Condition
deriving DecidableEq, Repr

/-- The per-condition result object returned by `checkOneCondition`
(src/app.js lines 77 and 115). -/
structure ConditionResult where
  field : String
  op : String
  value : JSVal
  actual : JSVal
  pass : Bool
  source : String
deriving DecidableEq, Repr

/-- The object returned by `checkOneRule` (src/app.js lines 142-145). -/
structure RuleResult where
  pass : Bool
  results : List ConditionResult
deriving DecidableEq, Repr

/-- One entry of the list returned by `checkAllRules`
(src/app.js lines 156-160). -/
structure RuleEvaluation where
  rule : Rule
  pass : Bool
  results : List ConditionResult
deriving DecidableEq, Repr

/-- Digits-and-rest split used by the `parseFloat` model. -/
def takeDigits : List Char → List Char × List Char
  | [] => ([], [])
  | c :: cs =>
    if c.isDigit then
      let p := takeDigits cs
      (c :: p.1, p.2)
    else ([], c :: cs)

/-- Decimal value of a digit list. -/
def digitsToNat (ds : List Char) : ℕ :=
  ds.foldl (fun acc c => acc * 10 + (c.toNat - 48)) 0

/-- Model of JavaScript `parseFloat` on a character list: skip leading
whitespace, optional sign, digits with an optional fractional part, ignore
any trailing garbage; `none` models `NaN` (no digits parsed).  Exponent
notation and `"Infinity"` are not exercised by this program's data and are
not modelled. -/
def parseFloatChars (cs : List Char) : Option ℚ :=
  let cs1 := cs.dropWhile Char.isWhitespace
  let sp : ℚ × List Char :=
    match cs1 with
    | '-' :: rest => (-1, rest)
    | '+' :: rest => (1, rest)
    | _ => (1, cs1)
  let ip := takeDigits sp.2
  match ip.2 with
  | '.' :: rest2 =>
    let fp := takeDigits rest2
    if ip.1.isEmpty ∧ fp.1.isEmpty then none
    else some (sp.1 * ((digitsToNat ip.1 : ℚ) +
      (digitsToNat fp.1 : ℚ) / ((10 : ℚ) ^ fp.1.length)))
  | _ =>
    if ip.1.isEmpty then none
    else some (sp.1 * (digitsToNat ip.1 : ℚ))

/-- Model of JavaScript `parseFloat` on an engine value.  A number parses
to itself (JS stringifies a finite number and re-parses it to the same
value); a string goes through `parseFloatChars`; `none` models `NaN`. -/
def jsParseFloat : JSVal → Option ℚ
  | .num q => some q
  | .str s => parseFloatChars s.toList

/-- Model of JavaScript `String(x)` on an engine value.  Integers print as
their decimal form (the only number-to-string coercions this program's
string operators exercise); the non-integer fallback is not a faithful
rendering of JS float formatting and is never relied on by a theorem. -/
def jsToString : JSVal → String
  | .str s => s
  | .num q => if q.den = 1 then toString q.num else toString q

/-- A JS comparison in which `none` plays `NaN`: any comparison with `NaN`
is false. -/
def nanCmp (f : ℚ → ℚ → Bool) : Option ℚ → Option ℚ → Bool
  | some a, some b => f a b
  | _, _ => false

/-- JS `>` with `NaN` as `none`. -/
def nanGt : Option ℚ → Option ℚ → Bool := nanCmp fun a b => decide (a > b)

/-- JS `<` with `NaN` as `none`. -/
def nanLt : Option ℚ → Option ℚ → Bool := nanCmp fun a b => decide (a < b)

/-- JS `>=` with `NaN` as `none`. -/
def nanGe : Option ℚ → Option ℚ → Bool := nanCmp fun a b => decide (a ≥ b)

/-- JS `<=` with `NaN` as `none`. -/
def nanLe : Option ℚ → Option ℚ → Bool := nanCmp fun a b => decide (a ≤ b)

/-- Does `needle` start `hay`?  (List-level prefix test for the `contains`
operator model.) -/
def startsWithList : List Char → List Char → Bool
  | [], _ => true
  | _ :: _, [] => false
  | n :: ns, h :: hs => n == h && startsWithList ns hs

/-- Substring test `hay.includes(needle)` at the character-list level. -/
def hasSubstr : List Char → List Char → Bool
  | _, [] => true
  | [], _ :: _ => false
  | c :: cs, d :: ds => startsWithList (d :: ds) (c :: cs) || hasSubstr cs (d :: ds)

/-- Case-insensitive substring match:
`String(a).toLowerCase().includes(String(b).toLowerCase())`, performed on
character lists (ASCII lowercasing; the program's data is ASCII). -/
def strContainsCI (hay needle : String) : Bool :=
  hasSubstr (hay.toList.map Char.toLower) (needle.toList.map Char.toLower)

/-- The `actualValue` lookup of `checkOneCondition` (src/app.js lines
63-73): `transaction[condition.field]` when `source === "raw"`, otherwise
`featureVector[condition.field]` when a feature vector is present, `null`
otherwise. -/
def lookupActual (condition : Condition) (transaction : Transaction)
    (featureVector : Option FeatureVector) : Option JSVal :=
  if condition.source = "raw" then transaction.fields condition.field
  else
    match featureVector with
    | some fv => fv condition.field
    | none => none

/-- The `pass` if-chain of `checkOneCondition` (src/app.js lines 80-113):
`let pass = false` followed by the operator dispatch; an operator matching
no branch leaves `pass` at `false`. -/
def opPass (condition : Condition) (actualValue : JSVal) : Bool :=
  let actualNumber := jsParseFloat actualValue
  let conditionNumber := jsParseFloat condition.value
  if condition.op = "==" then jsToString actualValue == jsToString condition.value
  else if condition.op = "!=" then jsToString actualValue != jsToString condition.value
  else if condition.op = ">" then nanGt actualNumber conditionNumber
  else if condition.op = "<" then nanLt actualNumber conditionNumber
  else if condition.op = ">=" then nanGe actualNumber conditionNumber
  else if condition.op = "<=" then nanLe actualNumber conditionNumber
  else if condition.op = "contains" then
    strContainsCI (jsToString actualValue) (jsToString condition.value)
  else if condition.op = "out_of_hours" then
    nanGe actualNumber (some 22) || nanLe actualNumber (some 5)
  else false

/-- `checkOneCondition` (src/app.js lines 60-116): missing value
short-circuits to the `"NOT FOUND"` result (line 77); otherwise the result
carries the looked-up `actual` and the `opPass` verdict (line 115). -/
def checkOneCondition (condition : Condition) (transaction : Transaction)
    (featureVector : Option FeatureVector) : ConditionResult :=
  match lookupActual condition transaction featureVector with
  | none =>
    { field := condition.field, op := condition.op, value := condition.value,
      actual := JSVal.str "NOT FOUND", pass := false, source := condition.source }
  | some actualValue =>
    { field := condition.field, op := condition.op, value := condition.value,
      actual := actualValue, pass := opPass condition actualValue,
      source := condition.source }

/-- `checkOneRule` (src/app.js lines 119-146): look the feature vector up
by `transaction.transaction_id` in the (here explicit) `featureVectors`
table, evaluate every condition in order, and fire iff every result
passed. -/
def checkOneRule (rule : Rule) (transaction : Transaction)
    (featureVectors : FeatureVectors) : RuleResult :=
  let featureVector := featureVectors transaction.transaction_id
  let conditionResults :=
    rule.conditions.map fun condition =>
      checkOneCondition condition transaction featureVector
  let allPassed := conditionResults.all fun r => r.pass
  { pass := allPassed, results := conditionResults }

/-- `checkAllRules` (src/app.js lines 149-164) with the globals explicit. -/
def checkAllRules (rules : List Rule) (transaction : Transaction)
    (featureVectors : FeatureVectors) : List RuleEvaluation :=
  rules.map fun rule =>
    let result := checkOneRule rule transaction featureVectors
    { rule := rule, pass := result.pass, results := result.results }

/-- The `flaggedTransactions` selection of `renderStats` (src/app.js lines
715-721): the transactions the rule fires on. -/
def flaggedTransactions (rule : Rule) (transactions : List Transaction)
    (featureVectors : FeatureVectors) : List Transaction :=
  transactions.filter fun tx => (checkOneRule rule tx featureVectors).pass

/-- The `hitCount` loop of `renderRules` (src/app.js lines 181-187). -/
def hitCount (rule : Rule) (transactions : List Transaction)
    (featureVectors : FeatureVectors) : ℕ :=
  transactions.countP fun tx => (checkOneRule rule tx featureVectors).pass

/-- JS division where `none` models `NaN`.  In this program the numerator
is `0` whenever the denominator is `0` (`hitCount ≤ transactions.length`),
so the division-by-zero case is exactly JS `0/0 = NaN`; `Infinity` never
arises. -/
def jsDiv (a b : ℚ) : Option ℚ :=
  if b = 0 then none else some (a / b)

/-- JS multiplication lifted over `NaN`. -/
def jsMul : Option ℚ → ℚ → Option ℚ
  | some a, b => some (a * b)
  | none, _ => none

/-- JS `Math.round` lifted over `NaN`: on a rational it is round-half-up
(`⌊x + 1/2⌋`), which is what Mathlib's `round` computes. -/
def jsRound : Option ℚ → Option ℤ
  | some a => some (round a)
  | none => none

/-- The hit-percentage computation shared by `renderRules` (line 189,
`Math.round((hitCount / transactions.length) * 100)`) and `renderStats`
(line 723, with `flaggedTransactions.length` as the count). -/
def hitPercent (rule : Rule) (transactions : List Transaction)
    (featureVectors : FeatureVectors) : Option ℤ :=
  jsRound (jsMul (jsDiv (hitCount rule transactions featureVectors : ℚ)
    (transactions.length : ℚ)) 100)

/-! Concrete data used by the witnesses. -/

/-- A transaction with a single payload field. -/
def singleFieldTx (id fld : String) (v : JSVal) : Transaction :=
  { transaction_id := id, fields := fun f => if f = fld then some v else none }

/-- The empty feature-vector table. -/
def noFvs : FeatureVectors := fun _ => none

/-- A feature-vector table with an entry only for id `"OTHER"`. -/
def fvsOther : FeatureVectors := fun id =>
  if id = "OTHER" then some (fun f => if f = "x" then some (JSVal.num 1) else none)
  else none

/-- A feature vector holding `x = 7`. -/
def fvX7 : Option FeatureVector :=
  some (fun f => if f = "x" then some (JSVal.num 7) else none)

/-- A rule that fires on nothing: `amount > "1000000"` over small amounts. -/
def ruleNever : Rule :=
  { rule_id := "R_NEVER", name := "never", severity := "Low", action := "Review",
    conditions := [⟨"amount", "raw", ">", JSVal.str "1000000"⟩] }

/-- A rule that fires on every transaction with a numeric `amount`:
`amount >= "0"`. -/
def ruleAlways : Rule :=
  { rule_id := "R_ALWAYS", name := "always", severity := "Low", action := "Review",
    conditions := [⟨"amount", "raw", ">=", JSVal.str "0"⟩] }

/-- Four small transactions (amount 5 each). -/
def fourTxs : List Transaction :=
  [singleFieldTx "T1" "amount" (JSVal.num 5),
   singleFieldTx "T2" "amount" (JSVal.num 5),
   singleFieldTx "T3" "amount" (JSVal.num 5),
   singleFieldTx "T4" "amount" (JSVal.num 5)]

/-- A transaction with `amount = 500` and `currency = "USD"`. -/
def txTwoFields : Transaction :=
  { transaction_id := "T9",
    fields := fun f =>
      if f = "amount" then some (JSVal.num 500)
      else if f = "currency" then some (JSVal.str "USD") else none }

/-- A three-condition rule whose first condition fails on `txTwoFields`
while the other two pass. -/
def ruleThree : Rule :=
  { rule_id := "R3", name := "three", severity := "High", action := "Block",
    conditions :=
      [⟨"amount", "raw", ">", JSVal.str "1000"⟩,
       ⟨"amount", "raw", ">=", JSVal.str "0"⟩,
       ⟨"currency", "raw", "==", JSVal.str "USD"⟩] }

/-! Helper lemmas shared by the claim theorems. -/

/-- Evaluation equation of `checkOneCondition` when the lookup succeeds. -/
lemma checkOneCondition_some (c : Condition) (tx : Transaction)
    (fv : Option FeatureVector) (a : JSVal)
    (h : lookupActual c tx fv = some a) :
    checkOneCondition c tx fv =
      { field := c.field, op := c.op, value := c.value, actual := a,
        pass := opPass c a, source := c.source } := by
  unfold checkOneCondition
  rw [h]

/-- A NaN-style comparison with an unparsable side is false. -/
lemma nanCmp_eq_false_of_none (f : ℚ → ℚ → Bool) (a b : Option ℚ)
    (h : a = none ∨ b = none) : nanCmp f a b = false := by
  rcases h with h | h
  · subst h; cases b <;> rfl
  · subst h; cases a <;> rfl

/-- `opPass` on operator `">"`. -/
lemma opPass_op_gt (c : Condition) (a : JSVal) (h : c.op = ">") :
    opPass c a = nanGt (jsParseFloat a) (jsParseFloat c.value) := by
  unfold opPass; rw [h]; rfl

/-- `opPass` on operator `"<"`. -/
lemma opPass_op_lt (c : Condition) (a : JSVal) (h : c.op = "<") :
    opPass c a = nanLt (jsParseFloat a) (jsParseFloat c.value) := by
  unfold opPass; rw [h]; rfl

/-- `opPass` on operator `">="`. -/
lemma opPass_op_ge (c : Condition) (a : JSVal) (h : c.op = ">=") :
    opPass c a = nanGe (jsParseFloat a) (jsParseFloat c.value) := by
  unfold opPass; rw [h]; rfl

/-- `opPass` on operator `"<="`. -/
lemma opPass_op_le (c : Condition) (a : JSVal) (h : c.op = "<=") :
    opPass c a = nanLe (jsParseFloat a) (jsParseFloat c.value) := by
  unfold opPass; rw [h]; rfl

/-- `opPass` on operator `"=="`. -/
lemma opPass_op_eq (c : Condition) (a : JSVal) (h : c.op = "==") :
    opPass c a = (jsToString a == jsToString c.value) := by
  unfold opPass; rw [h]; rfl

/-- `opPass` on operator `"!="`. -/
lemma opPass_op_ne (c : Condition) (a : JSVal) (h : c.op = "!=") :
    opPass c a = (jsToString a != jsToString c.value) := by
  unfold opPass; rw [h]; rfl

/-- `opPass` on operator `"out_of_hours"`: the condition value plays no
part. -/
lemma opPass_op_ooh (c : Condition) (a : JSVal) (h : c.op = "out_of_hours") :
    opPass c a =
      (nanGe (jsParseFloat a) (some 22) || nanLe (jsParseFloat a) (some 5)) := by
  unfold opPass; rw [h]; rfl

/-- `opPass` on an operator outside the dispatch chain stays at the initial
`false`. -/
lemma opPass_op_unknown (c : Condition) (a : JSVal)
    (h : c.op ∉ (["==", "!=", ">", "<", ">=", "<=", "contains",
      "out_of_hours"] : List String)) :
    opPass c a = false := by
  simp only [List.mem_cons, List.not_mem_nil, or_false, not_or] at h
  obtain ⟨h1, h2, h3, h4, h5, h6, h7, h8⟩ := h
  unfold opPass
  rw [if_neg h1, if_neg h2, if_neg h3, if_neg h4, if_neg h5, if_neg h6,
    if_neg h7, if_neg h8]

/-! Claim theorems. -/

/-- C1: for every rule and transaction, `checkOneRule` evaluates all `N`
conditions, returning exactly `N` `ConditionResult`s in the rule's
condition order (no short-circuit truncation), and its overall `pass` is
true iff every one of them passes. -/
theorem checkOneRule_evaluates_all_conditions (rule : Rule) (tx : Transaction)
    (fvs : FeatureVectors) :
    (checkOneRule rule tx fvs).results =
      rule.conditions.map (fun c => checkOneCondition c tx (fvs tx.transaction_id)) ∧
    (checkOneRule rule tx fvs).results.length = rule.conditions.length ∧
    ((checkOneRule rule tx fvs).pass = true ↔
      ∀ r ∈ (checkOneRule rule tx fvs).results, r.pass = true) := by
  refine ⟨rfl, ?_, ?_⟩
  · show (rule.conditions.map _).length = _
    rw [List.length_map]
  · exact List.all_eq_true (p := fun r => r.pass)
      (l := rule.conditions.map fun c => checkOneCondition c tx (fvs tx.transaction_id))

/-- Witness for C1: a rule with one failing condition among three returns
pass = false and exactly 3 `ConditionResult`s (no truncation). -/
theorem checkOneRule_evaluates_all_conditions_witness :
    (checkOneRule ruleThree txTwoFields noFvs).results.length = 3 ∧
    (checkOneRule ruleThree txTwoFields noFvs).pass = false :=
  ⟨(checkOneRule_evaluates_all_conditions ruleThree txTwoFields noFvs).2.1.trans
    (by decide), by decide⟩

/-- C2: whenever the looked-up actual value is missing (absent raw field,
absent derived field, or no feature vector at all), `checkOneCondition`
returns pass = false with the `"NOT FOUND"` sentinel as `actual`, and it is
total (never throws). -/
theorem checkOneCondition_missing_not_found (c : Condition) (tx : Transaction)
    (fv : Option FeatureVector) (h : lookupActual c tx fv = none) :
    checkOneCondition c tx fv =
      { field := c.field, op := c.op, value := c.value,
        actual := JSVal.str "NOT FOUND", pass := false, source := c.source } := by
  unfold checkOneCondition
  rw [h]

/-- Witness for C2: a `source = "derived"` condition with no feature vector
present reports `"NOT FOUND"` and fails. -/
theorem checkOneCondition_missing_not_found_witness :
    checkOneCondition ⟨"velocity_24h", "derived", ">", JSVal.str "3"⟩
      (singleFieldTx "T1" "amount" (JSVal.num 10)) none =
      ⟨"velocity_24h", ">", JSVal.str "3", JSVal.str "NOT FOUND", false,
        "derived"⟩ :=
  checkOneCondition_missing_not_found _ _ _ rfl

/-- C8: evaluation is a pure, deterministic function of the
(rule, transaction, feature-vector-or-absent) triple: two feature-vector
tables agreeing at the transaction's id give identical `RuleResult`s (the
embedding is stateless, so no input is mutated). -/
theorem checkOneRule_pure_function_of_triple (rule : Rule) (tx : Transaction)
    (fvs1 fvs2 : FeatureVectors)
    (h : fvs1 tx.transaction_id = fvs2 tx.transaction_id) :
    checkOneRule rule tx fvs1 = checkOneRule rule tx fvs2 := by
  unfold checkOneRule
  rw [h]

/-- Witness for C8: two different tables that agree at `"T1"` give the same
result there. -/
theorem checkOneRule_pure_function_of_triple_witness :
    checkOneRule ruleAlways (singleFieldTx "T1" "amount" (JSVal.num 5)) fvsOther
      = checkOneRule ruleAlways (singleFieldTx "T1" "amount" (JSVal.num 5)) noFvs :=
  checkOneRule_pure_function_of_triple _ _ _ _ rfl

/-- C10: the lookup reads the transaction record only when `source` is
exactly `"raw"`; every other source string (not only `"derived"`) reads the
feature vector when present and is missing otherwise, and
`checkOneCondition` reports that looked-up value (or the sentinel) as
`actual`. -/
theorem lookupActual_source_dispatch (c : Condition) (tx : Transaction)
    (fv : Option FeatureVector) :
    (c.source ≠ "raw" →
      lookupActual c tx fv =
        (match fv with | some f => f c.field | none => none)) ∧
    (c.source = "raw" → lookupActual c tx fv = tx.fields c.field) ∧
    (lookupActual c tx fv = none →
      (checkOneCondition c tx fv).actual = JSVal.str "NOT FOUND") ∧
    (∀ a, lookupActual c tx fv = some a →
      (checkOneCondition c tx fv).actual = a) := by
  refine ⟨?_, ?_, ?_, ?_⟩
  · intro h; unfold lookupActual; rw [if_neg h]
  · intro h; unfold lookupActual; rw [if_pos h]
  · intro h; unfold checkOneCondition; rw [h]
  · intro a h; unfold checkOneCondition; rw [h]

/-- Witness for C10: a condition with the off-enum source `"weird"` reads
`x` from the feature vector (7), not from the transaction (99). -/
theorem lookupActual_source_dispatch_witness :
    lookupActual ⟨"x", "weird", "==", JSVal.str "1"⟩
      (singleFieldTx "T1" "x" (JSVal.num 99)) fvX7 = some (JSVal.num 7) :=
  ((lookupActual_source_dispatch ⟨"x", "weird", "==", JSVal.str "1"⟩
    (singleFieldTx "T1" "x" (JSVal.num 99)) fvX7).1 (by decide)).trans rfl

/-- C3: the four numeric operators compare the `parseFloat` parses of the
actual value and the condition value, and whenever either side fails to
parse (`NaN`), the comparison — hence `pass` — is false, with no
exception. -/
theorem numeric_ops_parse_floats_unparsable_false (c : Condition)
    (tx : Transaction) (fv : Option FeatureVector) (a : JSVal)
    (h1 : lookupActual c tx fv = some a) :
    ((c.op = ">" → (checkOneCondition c tx fv).pass
        = nanGt (jsParseFloat a) (jsParseFloat c.value)) ∧
     (c.op = "<" → (checkOneCondition c tx fv).pass
        = nanLt (jsParseFloat a) (jsParseFloat c.value)) ∧
     (c.op = ">=" → (checkOneCondition c tx fv).pass
        = nanGe (jsParseFloat a) (jsParseFloat c.value)) ∧
     (c.op = "<=" → (checkOneCondition c tx fv).pass
        = nanLe (jsParseFloat a) (jsParseFloat c.value))) ∧
    ((c.op = ">" ∨ c.op = "<" ∨ c.op = ">=" ∨ c.op = "<=") →
      (jsParseFloat a = none ∨ jsParseFloat c.value = none) →
      (checkOneCondition c tx fv).pass = false) := by
  rw [checkOneCondition_some c tx fv a h1]
  refine ⟨⟨fun hop => ?_, fun hop => ?_, fun hop => ?_, fun hop => ?_⟩,
    fun hop hnan => ?_⟩
  · exact opPass_op_gt c a hop
  · exact opPass_op_lt c a hop
  · exact opPass_op_ge c a hop
  · exact opPass_op_le c a hop
  · show opPass c a = false
    rcases hop with hop | hop | hop | hop
    · rw [opPass_op_gt c a hop]; exact nanCmp_eq_false_of_none _ _ _ hnan
    · rw [opPass_op_lt c a hop]; exact nanCmp_eq_false_of_none _ _ _ hnan
    · rw [opPass_op_ge c a hop]; exact nanCmp_eq_false_of_none _ _ _ hnan
    · rw [opPass_op_le c a hop]; exact nanCmp_eq_false_of_none _ _ _ hnan

/-- Witness for C3: op `">"` with the unparsable condition value `"abc"`
against a numeric field value 10 gives pass = false. -/
theorem numeric_ops_parse_floats_unparsable_false_witness :
    (checkOneCondition ⟨"amount", "raw", ">", JSVal.str "abc"⟩
      (singleFieldTx "T1" "amount" (JSVal.num 10)) none).pass = false :=
  (numeric_ops_parse_floats_unparsable_false
    ⟨"amount", "raw", ">", JSVal.str "abc"⟩
    (singleFieldTx "T1" "amount" (JSVal.num 10)) none (JSVal.num 10) rfl).2
    (Or.inl rfl) (Or.inr rfl)

/-- C4: `"=="` and `"!="` compare the string representations of the two
sides: `"=="` passes iff `String(actual)` equals `String(condition.value)`
and `"!="` passes iff they differ. -/
theorem eq_ne_ops_compare_string_representations (c : Condition)
    (tx : Transaction) (fv : Option FeatureVector) (a : JSVal)
    (h : lookupActual c tx fv = some a) :
    (c.op = "==" → ((checkOneCondition c tx fv).pass = true ↔
      jsToString a = jsToString c.value)) ∧
    (c.op = "!=" → ((checkOneCondition c tx fv).pass = true ↔
      jsToString a ≠ jsToString c.value)) := by
  rw [checkOneCondition_some c tx fv a h]
  constructor
  · intro hop
    show opPass c a = true ↔ _
    rw [opPass_op_eq c a hop]
    exact beq_iff_eq
  · intro hop
    show opPass c a = true ↔ _
    rw [opPass_op_ne c a hop]
    exact bne_iff_ne

/-- Witness for C4: condition value `"5"` matches the number 5 under
`"=="` (string-coerced equality). -/
theorem eq_ne_ops_compare_string_representations_witness :
    (checkOneCondition ⟨"amount", "raw", "==", JSVal.str "5"⟩
      (singleFieldTx "T1" "amount" (JSVal.num 5)) none).pass = true :=
  ((eq_ne_ops_compare_string_representations
    ⟨"amount", "raw", "==", JSVal.str "5"⟩
    (singleFieldTx "T1" "amount" (JSVal.num 5)) none (JSVal.num 5) rfl).1
    rfl).mpr (by decide)

/-- C5: `"out_of_hours"` ignores the condition value entirely (changing it
changes nothing but the echoed `value` field of the result) and passes iff
the actual value parses to a number `≥ 22` or `≤ 5`. -/
theorem out_of_hours_ignores_value_checks_hour (c : Condition)
    (tx : Transaction) (fv : Option FeatureVector) (a : JSVal)
    (h1 : lookupActual c tx fv = some a) (h2 : c.op = "out_of_hours") :
    ((checkOneCondition c tx fv).pass =
      (nanGe (jsParseFloat a) (some 22) || nanLe (jsParseFloat a) (some 5))) ∧
    (∀ v : JSVal, checkOneCondition { c with value := v } tx fv =
      { checkOneCondition c tx fv with value := v }) := by
  constructor
  · rw [checkOneCondition_some c tx fv a h1]
    show opPass c a = _
    exact opPass_op_ooh c a h2
  · intro v
    rw [checkOneCondition_some { c with value := v } tx fv a h1,
      checkOneCondition_some c tx fv a h1,
      opPass_op_ooh { c with value := v } a h2, opPass_op_ooh c a h2]

/-- Witness for C5: hour 23 passes (with an arbitrary string value), hour
12 fails (with a numeric value). -/
theorem out_of_hours_ignores_value_checks_hour_witness :
    (checkOneCondition ⟨"hour", "raw", "out_of_hours", JSVal.str "anything"⟩
      (singleFieldTx "T1" "hour" (JSVal.num 23)) none).pass = true ∧
    (checkOneCondition ⟨"hour", "raw", "out_of_hours", JSVal.num 0⟩
      (singleFieldTx "T2" "hour" (JSVal.num 12)) none).pass = false := by
  constructor
  · rw [(out_of_hours_ignores_value_checks_hour
      ⟨"hour", "raw", "out_of_hours", JSVal.str "anything"⟩
      (singleFieldTx "T1" "hour" (JSVal.num 23)) none (JSVal.num 23)
      rfl rfl).1]
    decide
  · rw [(out_of_hours_ignores_value_checks_hour
      ⟨"hour", "raw", "out_of_hours", JSVal.num 0⟩
      (singleFieldTx "T2" "hour" (JSVal.num 12)) none (JSVal.num 12)
      rfl rfl).1]
    decide

/-- C9: an operator outside the eight known ones, on a present actual
value, falls through the if-chain and yields pass = false (no error, no
explicit unknown-operator report — the result is the ordinary record). -/
theorem unknown_op_falls_through_to_false (c : Condition) (tx : Transaction)
    (fv : Option FeatureVector) (a : JSVal)
    (h1 : lookupActual c tx fv = some a)
    (h2 : c.op ∉ (["==", "!=", ">", "<", ">=", "<=", "contains",
      "out_of_hours"] : List String)) :
    checkOneCondition c tx fv =
      { field := c.field, op := c.op, value := c.value, actual := a,
        pass := false, source := c.source } := by
  rw [checkOneCondition_some c tx fv a h1, opPass_op_unknown c a h2]

/-- Witness for C9: the off-enum operator `"regex_match"` gives a plain
failing result. -/
theorem unknown_op_falls_through_to_false_witness :
    checkOneCondition ⟨"amount", "raw", "regex_match", JSVal.str "5"⟩
      (singleFieldTx "T1" "amount" (JSVal.num 5)) none =
      ⟨"amount", "regex_match", JSVal.str "5", JSVal.num 5, false, "raw"⟩ :=
  unknown_op_falls_through_to_false
    ⟨"amount", "raw", "regex_match", JSVal.str "5"⟩
    (singleFieldTx "T1" "amount" (JSVal.num 5)) none (JSVal.num 5) rfl
    (by decide)

/-- C6: over a non-empty transaction list, the hit percentage is exactly
`round(100 * passCount / totalCount)` (the `renderStats` count via
`flaggedTransactions` agrees with the `renderRules` count); a rule firing
on none of the transactions scores 0 and one firing on all of them scores
100. -/
theorem hitPercent_is_rounded_pass_ratio (rule : Rule) (txs : List Transaction)
    (fvs : FeatureVectors) (h : txs ≠ []) :
    hitPercent rule txs fvs =
      some (round ((100 : ℚ) * (hitCount rule txs fvs : ℚ) / (txs.length : ℚ))) ∧
    (flaggedTransactions rule txs fvs).length = hitCount rule txs fvs ∧
    (hitCount rule txs fvs = 0 → hitPercent rule txs fvs = some 0) ∧
    (hitCount rule txs fvs = txs.length → hitPercent rule txs fvs = some 100) := by
  have hlen0 : txs.length ≠ 0 := fun hl => h (List.length_eq_zero.mp hl)
  have hlen : (txs.length : ℚ) ≠ 0 := Nat.cast_ne_zero.mpr hlen0
  have hmain : hitPercent rule txs fvs =
      some (round ((hitCount rule txs fvs : ℚ) / (txs.length : ℚ) * 100)) := by
    unfold hitPercent jsDiv
    rw [if_neg hlen]
    rfl
  refine ⟨?_, ?_, ?_, ?_⟩
  · have harg : (hitCount rule txs fvs : ℚ) / (txs.length : ℚ) * 100
        = (100 : ℚ) * (hitCount rule txs fvs : ℚ) / (txs.length : ℚ) := by
      ring
    rw [hmain, harg]
  · unfold flaggedTransactions hitCount
    rw [List.countP_eq_length_filter]
  · intro h0
    rw [hmain, h0]
    simp
  · intro hall
    rw [hmain, hall, div_self hlen, one_mul]
    decide

/-- Witness for C6: over four transactions, a rule matching none scores 0%
and a rule matching all four scores 100%. -/
theorem hitPercent_is_rounded_pass_ratio_witness :
    hitPercent ruleNever fourTxs noFvs = some 0 ∧
    hitPercent ruleAlways fourTxs noFvs = some 100 := by
  constructor
  · exact (hitPercent_is_rounded_pass_ratio ruleNever fourTxs noFvs
      (by simp [fourTxs])).2.2.1 (by decide)
  · exact (hitPercent_is_rounded_pass_ratio ruleAlways fourTxs noFvs
      (by simp [fourTxs])).2.2.2 (by decide)

/-- C7 counterexample: with zero transactions the hit percentage is not 0%
— the code computes `Math.round((0 / 0) * 100)`, i.e. `NaN` (modelled
`none`), which the dashboard renders as `NaN%`. -/
theorem hitPercent_empty_not_zero_counterexample :
    hitPercent ruleAlways [] noFvs ≠ some 0 := by decide

/-- C7 (amended): batch evaluation tolerates empty inputs without error —
zero rules give an empty result list and zero transactions give pass count
0 — but the hit percentage over zero transactions is the JS `NaN`
(modelled `none`), not 0%. -/
theorem batch_tolerates_empty_inputs (tx : Transaction) (rule : Rule)
    (fvs : FeatureVectors) :
    checkAllRules [] tx fvs = [] ∧
    hitCount rule [] fvs = 0 ∧
    hitPercent rule [] fvs = none := by
  refine ⟨rfl, rfl, ?_⟩
  rfl
